import Mathlib

/-!
Verification development for the rally-bot lifecycle manager (src/main.py).

The Python source is shallowly embedded: module-level dictionaries become
association lists over `Nat` keys, timestamps become `Int` seconds, and the
external platform (guild/channel/member objects, the voice transport, task
scheduling) is represented by explicit observation parameters that each
state-transition function receives.  Every definition is translated from the
source file; line references are given in the doc comments.
-/

namespace RallyBot

/-! ## Association-list model of Python dicts with `Nat` (snowflake id) keys -/

/-- Lookup in an association list; models `d.get(k)` / `d[k]` on a dict. -/
def lookupNat {β : Type} : List (Nat × β) → Nat → Option β
  | [], _ => none
  | p :: t, q => if p.1 = q then some p.2 else lookupNat t q

/-- Remove every binding of key `k`; models `d.pop(k, None)`'s effect on the dict. -/
def removeNat {β : Type} (l : List (Nat × β)) (k : Nat) : List (Nat × β) :=
  l.filter (fun p => p.1 != k)

/-- Dict assignment `d[k] = v`: replace the binding in place if the key is
present, append otherwise. -/
def upsertNat {β : Type} (l : List (Nat × β)) (k : Nat) (v : β) : List (Nat × β) :=
  if (lookupNat l k).isSome then l.map (fun p => if p.1 = k then (k, v) else p)
  else l ++ [(k, v)]

/-- In-place mutation of the value stored at key `k` (the Python code mutates
the fetched object, which aliases the dict entry). -/
def updateNat {β : Type} (l : List (Nat × β)) (k : Nat) (f : β → β) : List (Nat × β) :=
  l.map (fun p => if p.1 = k then (p.1, f p.2) else p)

theorem lookupNat_removeNat_self {β : Type} (l : List (Nat × β)) (k : Nat) :
    lookupNat (removeNat l k) k = none := by
  induction l with
  | nil => rfl
  | cons p t ih =>
      by_cases h : p.1 = k
      · simpa [removeNat, List.filter_cons, h] using ih
      · simpa [removeNat, List.filter_cons, h, lookupNat] using ih

theorem removeNat_removeNat_self {β : Type} (l : List (Nat × β)) (k : Nat) :
    removeNat (removeNat l k) k = removeNat l k := by
  induction l with
  | nil => rfl
  | cons p t ih =>
      by_cases h : p.1 = k
      · simp [removeNat, List.filter_cons, h] at ih ⊢
      · simp [removeNat, List.filter_cons, h] at ih ⊢

theorem lookupNat_updateNat_self {β : Type} (l : List (Nat × β)) (k : Nat) (f : β → β) :
    lookupNat (updateNat l k f) k = (lookupNat l k).map f := by
  induction l with
  | nil => rfl
  | cons p t ih =>
      by_cases h : p.1 = k
      · simp [updateNat, lookupNat, h]
      · simp [updateNat, lookupNat, h] at ih ⊢
        exact ih

theorem lookupNat_updateNat_ne {β : Type} (l : List (Nat × β)) (k m : Nat) (f : β → β)
    (h : m ≠ k) : lookupNat (updateNat l k f) m = lookupNat l m := by
  induction l with
  | nil => rfl
  | cons p t ih =>
      by_cases hp : p.1 = k
      · have hk : ¬ (k = m) := fun hh => h hh.symm
        simp [updateNat, lookupNat, hp, hk] at ih ⊢
        exact ih
      · by_cases hm : p.1 = m
        · simp [updateNat, lookupNat, hp, hm, h]
        · simp [updateNat, lookupNat, hp, hm] at ih ⊢
          exact ih

theorem lookupNat_append_right {β : Type} (l m : List (Nat × β)) (k : Nat)
    (h : lookupNat l k = none) : lookupNat (l ++ m) k = lookupNat m k := by
  induction l with
  | nil => rfl
  | cons p t ih =>
      by_cases hp : p.1 = k
      · simp [lookupNat, hp] at h
      · simp [lookupNat, hp] at h ⊢
        exact ih h

theorem lookupNat_upsertNat_self {β : Type} (l : List (Nat × β)) (k : Nat) (v : β) :
    lookupNat (upsertNat l k v) k = some v := by
  unfold upsertNat
  by_cases hs : (lookupNat l k).isSome
  · simp [hs]
    induction l with
    | nil => simp [lookupNat] at hs
    | cons p t ih =>
        by_cases hp : p.1 = k
        · simp [lookupNat, hp]
        · simp [lookupNat, hp] at hs ⊢
          exact ih hs
  · simp [hs]
    have hnone : lookupNat l k = none := by
      cases hh : lookupNat l k
      · rfl
      · rw [hh] at hs; simp at hs
    rw [lookupNat_append_right l _ k hnone]
    simp [lookupNat]

/-! ## Python string primitives (ASCII semantics)

Models of the `str` methods used by the source: `strip()` (drop surrounding
whitespace), `lower()`, `upper()`, `title()` (a character is uppercased when
the previous character is not a letter, lowercased otherwise), and
`startswith` with a single-character argument. -/

/-- Python `value.strip()`. -/
def pyStrip (s : String) : String :=
  String.mk (((s.toList.dropWhile Char.isWhitespace).reverse.dropWhile Char.isWhitespace).reverse)

/-- Python `value.lower()`. -/
def pyLower (s : String) : String :=
  String.mk (s.toList.map Char.toLower)

/-- Python `value.upper()`. -/
def pyUpper (s : String) : String :=
  String.mk (s.toList.map Char.toUpper)

/-- Worker for `pyTitle`: the Bool records whether the previous character was
a letter. -/
def pyTitleGo : Bool → List Char → List Char
  | _, [] => []
  | prevAlpha, c :: rest =>
      (if prevAlpha then c.toLower else c.toUpper) :: pyTitleGo c.isAlpha rest

/-- Python `value.title()`. -/
def pyTitle (s : String) : String :=
  String.mk (pyTitleGo false s.toList)

/-- Python `value.startswith(c)` for a one-character argument, as used by
`rally_dragon.value.strip().lower().startswith("y")` (main.py:568). -/
def startsWithChar (c : Char) (s : String) : Bool :=
  match s.toList with
  | [] => false
  | a :: _ => a == c

/-! ## `ensure_int` (main.py:135-139)

```python
def ensure_int(value: str, default: int = 0) -> int:
    try:
        return int("".join(ch for ch in value if ch.isdigit()))
    except Exception:
        return default
```
-/

/-- The digit characters of `value`, in order (`ch for ch in value if ch.isdigit()`). -/
def digitsOf (s : String) : List Char :=
  s.toList.filter Char.isDigit

/-- Decimal value of a digit string (`48` is the code of the zero digit). -/
def decimalOfDigits (l : List Char) : Nat :=
  l.foldl (fun acc c => acc * 10 + (c.toNat - 48)) 0

/-- Python `int(s)` applied to a digits-only string: raises (returns `none`)
exactly when the string is empty. -/
def pyIntOfDigits (l : List Char) : Option Nat :=
  if l.isEmpty then none else some (decimalOfDigits l)

/-- `ensure_int` from main.py:135-139: the `try`/`except` makes the function
total, the `except` branch returning `default`. -/
def ensure_int (value : String) (default : Int) : Int :=
  match pyIntOfDigits (digitsOf value) with
  | some n => (n : Int)
  | none => default

/-- C8: for every input string, capacity parsing strips the non-digit
characters and reads the remainder as a decimal integer; when nothing
parseable remains it returns 0; the result is always non-negative and the
function is total (the `try`/`except` swallows the only raising operation). -/
theorem ensure_int_spec (s : String) :
    0 ≤ ensure_int s 0
    ∧ ensure_int s 0 =
        (if (digitsOf s).isEmpty then (0 : Int) else (decimalOfDigits (digitsOf s) : Int))
    ∧ ensure_int ("12,000") 0 = 12000
    ∧ ensure_int ("abc") 0 = 0 := by
  refine ⟨?_, ?_, by decide, by decide⟩
  · unfold ensure_int pyIntOfDigits
    by_cases h : (digitsOf s).isEmpty <;> simp [h]
  · unfold ensure_int pyIntOfDigits
    by_cases h : (digitsOf s).isEmpty <;> simp [h]

/-! ## Data model (main.py:80-119)

`Participant` and `Rally` mirror the dataclasses; the troop type and tier are
kept as the strings the source stores (validated against the `Literal`
values by the join handler).  `RALLIES : Dict[int, Rally]` and
`VC_TO_POST : Dict[int, int]` become the two fields of `Store`. -/

structure Participant where
  user_id : Nat
  troop_type : String
  troop_tier : String
  rally_dragon : Bool
  capacity_value : Int
deriving DecidableEq, Repr

structure Rally where
  message_id : Nat
  guild_id : Nat
  channel_id : Nat
  creator_id : Nat
  rally_kind : String
  keep_power : Option String
  primary_troop : Option String
  keep_level : Option String
  gear_worn : Option String
  idle_and_scouted : Option String
  temp_vc_id : Option Nat
  temp_vc_invite_url : Option String
  participants : List (Nat × Participant)
deriving DecidableEq, Repr

/-- The module-level registries `RALLIES` (message id → rally) and
`VC_TO_POST` (voice channel id → message id). -/
structure Store where
  rallies : List (Nat × Rally)
  vc_to_post : List (Nat × Nat)
deriving DecidableEq, Repr

/-- The two mutations `r.temp_vc_id = None; r.temp_vc_invite_url = None`
performed by `delete_rally_for_vc` (main.py:874-875). -/
def clearRallyVC (r : Rally) : Rally :=
  { r with temp_vc_id := none, temp_vc_invite_url := none }

/-- `delete_rally_for_vc` (main.py:858-876) as a transition on `Store`.

The function pops the reverse-index entry, disconnects the bot and deletes
the external channel inside a `try`/`except` that swallows every failure
(`deleteFailed` records whether the external delete raised; it has no effect
on the in-memory state precisely because the exception is caught), and then,
`if mid and mid in RALLIES`, clears the rally's voice fields.  The final
`update_post` only edits the announcement message, touching no store state. -/
def delete_rally_for_vc (s : Store) (vcId : Nat) (deleteFailed : Bool) : Store :=
  ⟨(match lookupNat s.vc_to_post vcId with
    | some m =>
        if (m != 0) && (lookupNat s.rallies m).isSome
        then updateNat s.rallies m clearRallyVC else s.rallies
    | none => s.rallies),
   removeNat s.vc_to_post vcId⟩

/-- The body of `schedule_delete_if_empty` after its sleep (main.py:844-855):
re-fetch the guild and channel, and delete only when the channel still exists
as a voice channel and its live member list is empty.  `liveMembers` is the
member count observed at fire time (`none` when `get_channel` does not return
a voice channel); the returned Bool records whether a deletion was issued. -/
def schedule_delete_if_empty_fire (s : Store) (vcId : Nat) (guildExists : Bool)
    (liveMembers : Option Nat) (deleteFailed : Bool) : Store × Bool :=
  if guildExists = false then (s, false)
  else
    match liveMembers with
    | some n => if n == 0 then (delete_rally_for_vc s vcId deleteFailed, true) else (s, false)
    | none => (s, false)

/-! ## Join-form submission (`JoinRallyModal.on_submit`, main.py:557-581) -/

inductive SubmitOutcome
  | noRally
  | badType
  | badTier
  | joined
deriving DecidableEq, Repr

/-- `tt not in ("Cavalry", "Infantry", "Range")` (main.py:563). -/
def validTroopType (s : String) : Bool :=
  s == "Cavalry" || s == "Infantry" || s == "Range"

/-- `tier not in ("T8", "T9", "T10", "T11", "T12")` (main.py:566). -/
def validTroopTier (s : String) : Bool :=
  s == "T8" || s == "T9" || s == "T10" || s == "T11" || s == "T12"

/-- `JoinRallyModal.on_submit` restricted to its effect on `RALLIES`:
look up the rally, normalize `troop_type` with `strip().title()` and
`troop_tier` with `strip().upper()`, reject values outside the enums without
mutating anything, and otherwise overwrite the submitting user's roster entry
with the normalized values, the dragon flag
`rally_dragon.value.strip().lower().startswith("y")` and the parsed capacity. -/
def joinSubmit (rallies : List (Nat × Rally)) (mid uid : Nat)
    (troopTypeIn troopTierIn dragonIn capacityIn : String) :
    SubmitOutcome × List (Nat × Rally) :=
  match lookupNat rallies mid with
  | none => (SubmitOutcome.noRally, rallies)
  | some _ =>
      if validTroopType (pyTitle (pyStrip troopTypeIn)) then
        if validTroopTier (pyUpper (pyStrip troopTierIn)) then
          (SubmitOutcome.joined,
           updateNat rallies mid (fun r =>
             { r with participants :=
                 (upsertNat r.participants uid
                   (Participant.mk uid (pyTitle (pyStrip troopTypeIn))
                     (pyUpper (pyStrip troopTierIn))
                     (startsWithChar 'y' (pyLower (pyStrip dragonIn)))
                     (ensure_int capacityIn 0))) }))
        else (SubmitOutcome.badTier, rallies)
      else (SubmitOutcome.badType, rallies)

/-- The roster entry stored for `uid` on rally `mid`, if any. -/
def storedParticipant (rallies : List (Nat × Rally)) (mid uid : Nat) : Option Participant :=
  match lookupNat rallies mid with
  | some r => lookupNat r.participants uid
  | none => none

/-! ## Per-guild voice session state (main.py:266-304, 426-502)

`GuildVoiceState` mirrors the slots of the Python class of the same name
(`idle_task`/`post_play_task` are reduced to whether a live task is pending;
`disconnect_grace_period_task` is modelled separately for the cleanup claims).
Timestamps are `Int` seconds.  The per-guild entry of the module-level
`VOICE_STATE` dict is an `Option GuildVoiceState` (`none` = no entry). -/

structure GuildVoiceState where
  last_activity : Int
  idle_task_pending : Bool
  post_play_task_pending : Bool
  connection_failure_cooldown_until : Int
deriving DecidableEq, Repr

/-- `GuildVoiceState.__init__` (main.py:268-273). -/
def initGVS (now : Int) : GuildVoiceState :=
  ⟨now, false, false, 0⟩

/-- `VOICE_STATE.setdefault(guild_id, GuildVoiceState())` (main.py:295 etc.). -/
def gvsSetdefault (st : Option GuildVoiceState) (now : Int) : GuildVoiceState :=
  st.getD (initGVS now)

/-- `_clean_guild_voice_state` (main.py:287-292): cancels all tasks for the
guild and deletes its `VOICE_STATE` entry. -/
def clean_guild_voice_state (st : Option GuildVoiceState) : Option GuildVoiceState :=
  match st with
  | _ => none

/-- `_touch_activity` (main.py:294-304): refresh `last_activity`, reset the
connection cooldown to 0, cancel and re-create the idle task.  The post-play
and grace tasks are not touched. -/
def touch_activity (st : Option GuildVoiceState) (now : Int) : GuildVoiceState :=
  let s := gvsSetdefault st now
  { s with last_activity := now, connection_failure_cooldown_until := 0,
           idle_task_pending := true }

/-- `_on_playback_finished` (main.py:403-409): touch activity, then cancel and
re-arm the post-play disconnect task. -/
def on_playback_finished (st : Option GuildVoiceState) (now : Int) : GuildVoiceState :=
  { (touch_activity st now) with post_play_task_pending := true }

/-- Outcome of one `vc_target.connect(...)` attempt plus the 15-second
readiness poll of `_ensure_voice_ready` (main.py:478-496): the transport
either becomes connected, never reaches connected state before the poll
expires, or raises. -/
inductive ConnectOracle
  | succeeds
  | timesOut
  | raises
deriving DecidableEq, Repr

/-- The external observations `_ensure_voice_ready` makes besides
`VOICE_STATE`: the feature flag, the member's voice channel, Opus loading,
the bot's permissions in the target channel, whether a connected voice client
already exists, and how a fresh connect attempt would end. -/
structure EnsureEnv where
  enable_voice : Bool
  member_in_vc : Bool
  opus_ok : Bool
  perm_connect : Bool
  perm_speak : Bool
  already_connected : Bool
  oracle : ConnectOracle
deriving DecidableEq, Repr

inductive EnsureOutcome
  | onCooldown (remaining : Int)
  | voiceDisabled
  | notInVoice
  | opusFailed
  | missingPerms
  | okExisting
  | okConnected
  | timedOut
  | connectFailed
deriving DecidableEq, Repr

/-- `_ensure_voice_ready` after the cooldown gate (main.py:437-502).

On the fresh-connect path the source first calls `_clean_guild_voice_state`
(main.py:475); on timeout or exception it does
`state = VOICE_STATE.setdefault(...)`,
`state.connection_failure_cooldown_until = time.time() + 60`, and then calls
`_clean_guild_voice_state` again (main.py:493-495, 499-501), which deletes
the entry the cooldown was just stored on. -/
def ensure_voice_rest (st : Option GuildVoiceState) (now : Int) (env : EnsureEnv) :
    Option GuildVoiceState × EnsureOutcome :=
  if env.enable_voice = false then (st, EnsureOutcome.voiceDisabled)
  else if env.member_in_vc = false then (st, EnsureOutcome.notInVoice)
  else if env.opus_ok = false then (st, EnsureOutcome.opusFailed)
  else if env.perm_connect = false ∨ env.perm_speak = false then
    (st, EnsureOutcome.missingPerms)
  else if env.already_connected then
    (some (touch_activity st now), EnsureOutcome.okExisting)
  else
    match env.oracle with
    | ConnectOracle.succeeds =>
        (some (touch_activity (clean_guild_voice_state st) now), EnsureOutcome.okConnected)
    | ConnectOracle.timesOut =>
        (clean_guild_voice_state
           (some { (gvsSetdefault (clean_guild_voice_state st) now) with
                     connection_failure_cooldown_until := now + 60 }),
         EnsureOutcome.timedOut)
    | ConnectOracle.raises =>
        (clean_guild_voice_state
           (some { (gvsSetdefault (clean_guild_voice_state st) now) with
                     connection_failure_cooldown_until := now + 60 }),
         EnsureOutcome.connectFailed)

/-- `_ensure_voice_ready` (main.py:426-502): the cooldown gate
(`if guild_id in VOICE_STATE` and `time.time() < cooldown_until`, returning
the remaining seconds) followed by the rest of the function. -/
def ensure_voice_ready (st : Option GuildVoiceState) (now : Int) (env : EnsureEnv) :
    Option GuildVoiceState × EnsureOutcome :=
  match st with
  | some s =>
      if now < s.connection_failure_cooldown_until then
        (some s, EnsureOutcome.onCooldown (s.connection_failure_cooldown_until - now))
      else ensure_voice_rest (some s) now env
  | none => ensure_voice_rest none now env

/-! ## Post-playback disconnect timer (`_disconnect_after_play`, main.py:371-401)
and the `/stay` command (main.py:958-979) -/

/-- Per-guild session state together with a ghost flag recording whether the
operator has requested that the bot stay (the spec's `stayMode`).  The source
keeps no such flag: `/stay` only writes `last_activity`; the ghost field lets
the stay-mode claim be stated against the code. -/
structure SessionModel where
  gvs : Option GuildVoiceState
  stay_requested : Bool
deriving DecidableEq, Repr

/-- Effect of a successful `/stay` on the guild's voice state
(main.py:958-979): `_ensure_voice_ready` touches activity on success; the
command then sets `last_activity = time.time() + 3600*24*7`, cancels the idle
task, and finally calls `_touch_activity` — which overwrites
`last_activity` back to `time.time()`.  The ghost flag records the request. -/
def stay_command_effect (m : SessionModel) (now : Int) : SessionModel :=
  let s1 := touch_activity m.gvs now
  let s2 := { s1 with last_activity := now + 604800, idle_task_pending := false }
  ⟨some (touch_activity (some s2) now), true⟩

/-- What `_disconnect_after_play` observes when its sleep expires
(main.py:374-383): whether the guild still exists, whether a voice client
exists and is connected, whether audio is playing, and the number of non-bot
members in the bot's channel. -/
structure PostPlayObs where
  guildExists : Bool
  hasVoiceClient : Bool
  isConnected : Bool
  isPlaying : Bool
  nonBotMembers : Nat
deriving DecidableEq, Repr

/-- The decision body of `_disconnect_after_play` (main.py:374-398).  The
returned Bool records whether a disconnect was issued.  Note that the
decision reads only the live observations — no field of the session state
(in particular nothing resembling a stay flag) is consulted. -/
def disconnect_after_play_fire (m : SessionModel) (obs : PostPlayObs) :
    SessionModel × Bool :=
  if obs.guildExists = false then ({ m with gvs := none }, false)
  else if obs.hasVoiceClient && obs.isConnected && !obs.isPlaying then
    (if obs.nonBotMembers == 0 then ({ m with gvs := none }, true) else (m, false))
  else if obs.hasVoiceClient && !obs.isConnected then ({ m with gvs := none }, false)
  else if !obs.hasVoiceClient then ({ m with gvs := none }, false)
  else (m, false)

/-! ## Temp-VC deletion-task bookkeeping (main.py:800, 837, 844-855, 895-924)

The claims about duplicate scheduling need task identities, so this model
tracks every `schedule_delete_if_empty` task ever created, with its status.
`tracked` models `VOICE_STATE[guild].disconnect_grace_period_task` as the
index (creation order) of the task the handler stored — the creation-time
tasks spawned by `KeepForm.on_submit` (main.py:800) and `rally_sop`
(main.py:837) are fire-and-forget and never stored there. -/

inductive TaskStatus
  | pending
  | cancelled
deriving DecidableEq, BEq, Repr

structure DelTask where
  guild : Nat
  channel : Nat
  status : TaskStatus
deriving DecidableEq, Repr

structure CleanupState where
  vc_to_post : List (Nat × Nat)
  tasks : List DelTask
  tracked : List (Nat × Nat)
deriving DecidableEq, Repr

/-- nth element of the task list. -/
def nthTask : List DelTask → Nat → Option DelTask
  | [], _ => none
  | t :: _, 0 => some t
  | _ :: ts, Nat.succ i => nthTask ts i

/-- `task and not task.done()` for the tracked grace task (main.py:906). -/
def taskPendingAt (ts : List DelTask) (i : Nat) : Bool :=
  match nthTask ts i with
  | some t => t.status == TaskStatus.pending
  | none => false

/-- Set the status of task `i` to cancelled (`task.cancel()`). -/
def cancelTaskAt : List DelTask → Nat → List DelTask
  | [], _ => []
  | t :: ts, 0 => { t with status := TaskStatus.cancelled } :: ts
  | t :: ts, Nat.succ i => t :: cancelTaskAt ts i

inductive CleanupEvent
  | createRally (guild vcId msgId : Nat)
  | memberCountChange (guild vcId newCount : Nat)
deriving DecidableEq, Repr

/-- One step of the deletion-task bookkeeping.

`createRally` is the tail of `KeepForm.on_submit`/`rally_sop`
(main.py:792-800, 829-837): register `VC_TO_POST[vc.id] = dummy.id` and spawn
an untracked `schedule_delete_if_empty` task.

`memberCountChange` is one iteration of the channel loop in
`on_voice_state_update` (main.py:895-924) for a channel whose member count is
now `newCount`: for a rally channel that became empty, schedule a deletion
task unless the guild's tracked grace task is still pending; for a non-empty
rally channel, cancel the tracked grace task if it is pending. -/
def stepCleanup (s : CleanupState) (e : CleanupEvent) : CleanupState :=
  match e with
  | CleanupEvent.createRally g vc msg =>
      { s with vc_to_post := upsertNat s.vc_to_post vc msg,
               tasks := s.tasks ++ [DelTask.mk g vc TaskStatus.pending] }
  | CleanupEvent.memberCountChange g vc n =>
      if (lookupNat s.vc_to_post vc).isSome = false then s
      else if n == 0 then
        match lookupNat s.tracked g with
        | some tid =>
            if taskPendingAt s.tasks tid then s
            else
              { s with tasks := s.tasks ++ [DelTask.mk g vc TaskStatus.pending],
                       tracked := upsertNat s.tracked g s.tasks.length }
        | none =>
            { s with tasks := s.tasks ++ [DelTask.mk g vc TaskStatus.pending],
                     tracked := upsertNat s.tracked g s.tasks.length }
      else
        match lookupNat s.tracked g with
        | some tid =>
            if taskPendingAt s.tasks tid then
              { s with tasks := cancelTaskAt s.tasks tid,
                       tracked := removeNat s.tracked g }
            else s
        | none => s

/-- Number of pending deletion tasks that target channel `ch`. -/
def pendingTasksFor (ts : List DelTask) (ch : Nat) : Nat :=
  (ts.filter (fun t => t.channel == ch && t.status == TaskStatus.pending)).length

/-! ## Category resolution (`pick_or_create_category`, main.py:141-154) -/

inductive ChanKind
  | text
  | voice
  | category
  | other
deriving DecidableEq, BEq, Repr

structure ChannelInfo where
  kind : ChanKind
  category : Option Nat
deriving DecidableEq, Repr

structure GuildModel where
  channels : List (Nat × ChannelInfo)
deriving DecidableEq, Repr

structure OwnerModel where
  voice_channel : Option ChannelInfo
deriving DecidableEq, Repr

/-- `isinstance(guild.get_channel(cid), discord.CategoryChannel)`
(main.py:147-148). -/
def resolvesAsCategory (g : GuildModel) (cid : Nat) : Bool :=
  match lookupNat g.channels cid with
  | some ci => ci.kind == ChanKind.category
  | none => false

/-- `isinstance(context_channel, (TextChannel, VoiceChannel)) and
context_channel.category` (main.py:150). -/
def contextCategory (context : Option ChannelInfo) : Option Nat :=
  match context with
  | some ci =>
      if ci.kind == ChanKind.text || ci.kind == ChanKind.voice then ci.category else none
  | none => none

/-- `owner and owner.voice and isinstance(owner.voice.channel, VoiceChannel)
and owner.voice.channel.category` (main.py:152). -/
def ownerVoiceCategory (owner : Option OwnerModel) : Option Nat :=
  match owner with
  | some o =>
      match o.voice_channel with
      | some vc => if vc.kind == ChanKind.voice then vc.category else none
      | none => none
  | none => none

/-- `pick_or_create_category` (main.py:141-154), returning the id of the
chosen category, or `none` when the function falls through to
`guild.create_category("Rallies")` (a fresh category with no prior id). -/
def pick_or_create_category (cfgId : Nat) (g : GuildModel)
    (context : Option ChannelInfo) (owner : Option OwnerModel) : Option Nat :=
  if (cfgId != 0) && resolvesAsCategory g cfgId then some cfgId
  else
    match contextCategory context with
    | some c => some c
    | none =>
        match ownerVoiceCategory owner with
        | some c => some c
        | none => none

/-! ## Demonstration data used by witnesses -/

def demoHost : Participant := ⟨11, "Cavalry", "T10", false, 0⟩

def demoRally : Rally :=
  ⟨100, 1, 2, 11, "KEEP", some ("200m"), some ("Cavalry"), some ("K30"),
   some ("Attack"), some ("Idle 10m"), some 7, some ("invite"),
   [(11, demoHost)]⟩

def demoStore : Store := ⟨[(100, demoRally)], [(7, 100)]⟩

/-- Session state reached by: `/stay` at t=1000, playback finished at t=1200
(arming the post-play timer), the operator's leave touching activity at
t=1210.  Nothing between these events releases the stay request. -/
def stayFireState : SessionModel :=
  let afterStay := stay_command_effect ⟨none, false⟩ 1000
  let afterPlayback : SessionModel :=
    ⟨some (on_playback_finished afterStay.gvs 1200), afterStay.stay_requested⟩
  ⟨some (touch_activity afterPlayback.gvs 1210), afterPlayback.stay_requested⟩

/-! ## Claim theorems -/

/-- C1 (code-bug evidence): `_ensure_voice_ready` stores the 60-second
failure cooldown on the guild's `VOICE_STATE` entry and then immediately
deletes that entry via `_clean_guild_voice_state`, so after a connect timeout
at t=1000 no state survives, and a second call at t=1010 — well inside the
cooldown window the claim requires — issues a fresh connect attempt and
succeeds instead of failing with the on-cooldown error.  The third conjunct
shows the cooldown gate itself works when an entry carrying the cooldown
exists, isolating the erasure as the defect. -/
theorem c1_cooldown_erased :
    ensure_voice_ready none 1000 (EnsureEnv.mk true true true true true false ConnectOracle.timesOut) =
      (none, EnsureOutcome.timedOut)
    ∧ ensure_voice_ready
        (ensure_voice_ready none 1000 (EnsureEnv.mk true true true true true false ConnectOracle.timesOut)).1
        1010 (EnsureEnv.mk true true true true true false ConnectOracle.succeeds) =
      (some (touch_activity none 1010), EnsureOutcome.okConnected)
    ∧ ensure_voice_ready
        (some { initGVS 1000 with connection_failure_cooldown_until := 1060 })
        1010 (EnsureEnv.mk true true true true true false ConnectOracle.succeeds) =
      (some { initGVS 1000 with connection_failure_cooldown_until := 1060 },
       EnsureOutcome.onCooldown 50) := by
  refine ⟨rfl, rfl, rfl⟩

/-- C2 counterexample: the operator runs `/stay` at t=1000 (so a stay is
requested and never released), a playback finishes at t=1200 arming the
post-play timer, the operator leaves at t=1210; when the timer fires with the
session connected, nothing playing and no non-bot member left,
`_disconnect_after_play` disconnects anyway — so "if stay mode is on, the
timer does not disconnect" is false on the code. -/
theorem c2_stay_ignored :
    (stayFireState).stay_requested = true
    ∧ Option.map GuildVoiceState.post_play_task_pending (stayFireState).gvs = some true
    ∧ (disconnect_after_play_fire (stayFireState) (PostPlayObs.mk true true true false 0)).2 = true := by
  refine ⟨rfl, rfl, rfl⟩

/-- C2 (amended): when the post-playback disconnect timer fires, it
disconnects exactly when the guild still exists, a connected voice client is
present, nothing is playing, and no non-bot member remains in the channel;
the timer consults no stay condition — the session state (including any
record of a stay request) does not enter the decision. -/
theorem postplay_fire_characterization (m : SessionModel) (obs : PostPlayObs) :
    (disconnect_after_play_fire m obs).2 = true ↔
      (obs.guildExists = true ∧ obs.hasVoiceClient = true ∧ obs.isConnected = true
        ∧ obs.isPlaying = false ∧ obs.nonBotMembers = 0) := by
  rcases obs with ⟨ge, hvc, ic, ip, n⟩
  cases ge <;> cases hvc <;> cases ic <;> cases ip <;>
    by_cases hn : n = 0 <;> simp [disconnect_after_play_fire, hn]

/-- C3: on a join-form submission for an existing rally, a troop type whose
`strip().title()` normalization is outside {Cavalry, Infantry, Range} or a
tier whose `strip().upper()` normalization is outside {T8..T12} yields a
validation error with the rally store unchanged; when both are valid, the
submitting user's roster entry is stored with exactly the normalized values. -/
theorem joinSubmit_validation (rallies : List (Nat × Rally)) (mid uid : Nat)
    (ttIn tierIn dIn cIn : String) (r : Rally)
    (hr : lookupNat rallies mid = some r) :
    (validTroopType (pyTitle (pyStrip ttIn)) = false →
        joinSubmit rallies mid uid ttIn tierIn dIn cIn = (SubmitOutcome.badType, rallies))
    ∧ (validTroopType (pyTitle (pyStrip ttIn)) = true →
        validTroopTier (pyUpper (pyStrip tierIn)) = false →
        joinSubmit rallies mid uid ttIn tierIn dIn cIn = (SubmitOutcome.badTier, rallies))
    ∧ (validTroopType (pyTitle (pyStrip ttIn)) = true →
        validTroopTier (pyUpper (pyStrip tierIn)) = true →
        (joinSubmit rallies mid uid ttIn tierIn dIn cIn).1 = SubmitOutcome.joined
        ∧ storedParticipant (joinSubmit rallies mid uid ttIn tierIn dIn cIn).2 mid uid =
            some (Participant.mk uid (pyTitle (pyStrip ttIn)) (pyUpper (pyStrip tierIn))
              (startsWithChar 'y' (pyLower (pyStrip dIn))) (ensure_int cIn 0))) := by
  refine ⟨?_, ?_, ?_⟩
  · intro h1
    simp [joinSubmit, hr, h1]
  · intro h1 h2
    simp [joinSubmit, hr, h1, h2]
  · intro h1 h2
    refine ⟨by simp [joinSubmit, hr, h1, h2], ?_⟩
    simp [joinSubmit, hr, h1, h2, storedParticipant, lookupNat_updateNat_self,
          lookupNat_upsertNat_self]

/-- C3 witness: a concrete submission `(" infantry ", "t9", "YES", "12,000")`
on the demo rally is accepted and stored normalized. -/
theorem joinSubmit_validation_witness :
    (joinSubmit [(100, demoRally)] 100 42 (" infantry ") ("t9") ("YES") ("12,000")).1 =
      SubmitOutcome.joined
    ∧ storedParticipant
        (joinSubmit [(100, demoRally)] 100 42 (" infantry ") ("t9") ("YES") ("12,000")).2
        100 42 =
      some (Participant.mk 42 (pyTitle (pyStrip (" infantry "))) (pyUpper (pyStrip ("t9")))
        (startsWithChar 'y' (pyLower (pyStrip ("YES")))) (ensure_int ("12,000") 0)) :=
  (joinSubmit_validation [(100, demoRally)] 100 42 (" infantry ") ("t9") ("YES") ("12,000")
      demoRally rfl).2.2 (by decide) (by decide)

/-- C4: when the grace-timer body of `schedule_delete_if_empty` runs and the
live membership it re-checks at fire time is non-zero, it deletes nothing and
leaves the store untouched — so a member who joined during the grace period
(and is still present) prevents the deletion at the original deadline. -/
theorem schedule_fire_noop_when_occupied (s : Store) (vcId n : Nat) (df : Bool)
    (hn : 0 < n) :
    schedule_delete_if_empty_fire s vcId true (some n) df = (s, false) := by
  have h0 : n ≠ 0 := Nat.pos_iff_ne_zero.mp hn
  simp [schedule_delete_if_empty_fire, h0]

/-- C4 witness: firing on the demo store with one live member is a no-op. -/
theorem schedule_fire_noop_when_occupied_witness :
    schedule_delete_if_empty_fire demoStore 7 true (some 1) false = (demoStore, false) :=
  schedule_fire_noop_when_occupied demoStore 7 1 false (by decide)

/-- C5 (code-bug evidence): creating a rally spawns an untracked
`schedule_delete_if_empty` task, and the voice-state handler only dedups
against the tracked per-guild grace task — so after `createRally(vc=7)`, a
join and a leave on channel 7, two deletion tasks are pending for the same
channel, violating the at-most-one-pending-deletion-task invariant. -/
theorem c5_duplicate_pending_tasks :
    pendingTasksFor
      (List.foldl stepCleanup (CleanupState.mk [] [] [])
        [CleanupEvent.createRally 1 7 100,
         CleanupEvent.memberCountChange 1 7 1,
         CleanupEvent.memberCountChange 1 7 0]).tasks 7 = 2 := by
  decide

/-- C6: `delete_rally_for_vc` is idempotent on the store — the second call
finds the reverse-index entry already popped, its channel delete failure is
swallowed, and it performs no further mutation, for every store and every
combination of external delete outcomes. -/
theorem delete_rally_idempotent (s : Store) (vcId : Nat) (df1 df2 : Bool) :
    delete_rally_for_vc (delete_rally_for_vc s vcId df1) vcId df2 =
      delete_rally_for_vc s vcId df1 := by
  simp [delete_rally_for_vc, lookupNat_removeNat_self, removeNat_removeNat_self]

/-- C7: after teardown of a rally's temp voice channel — whether or not the
external channel delete failed — the rally's voice-channel id and invite URL
are cleared, the channel→rally reverse-index entry is removed, other rallies
are untouched, and every other field of the rally (in particular the roster)
is unchanged. -/
theorem delete_rally_clears (s : Store) (vcId mid : Nat) (r : Rally) (df : Bool)
    (hvc : lookupNat s.vc_to_post vcId = some mid) (hmid : mid ≠ 0)
    (hr : lookupNat s.rallies mid = some r) :
    lookupNat (delete_rally_for_vc s vcId df).vc_to_post vcId = none
    ∧ lookupNat (delete_rally_for_vc s vcId df).rallies mid = some (clearRallyVC r)
    ∧ (∀ m2, m2 ≠ mid →
        lookupNat (delete_rally_for_vc s vcId df).rallies m2 = lookupNat s.rallies m2)
    ∧ (clearRallyVC r).temp_vc_id = none
    ∧ (clearRallyVC r).temp_vc_invite_url = none
    ∧ (clearRallyVC r).participants = r.participants
    ∧ (clearRallyVC r).message_id = r.message_id
    ∧ (clearRallyVC r).guild_id = r.guild_id
    ∧ (clearRallyVC r).channel_id = r.channel_id
    ∧ (clearRallyVC r).creator_id = r.creator_id
    ∧ (clearRallyVC r).rally_kind = r.rally_kind
    ∧ (clearRallyVC r).keep_power = r.keep_power
    ∧ (clearRallyVC r).primary_troop = r.primary_troop
    ∧ (clearRallyVC r).keep_level = r.keep_level
    ∧ (clearRallyVC r).gear_worn = r.gear_worn
    ∧ (clearRallyVC r).idle_and_scouted = r.idle_and_scouted := by
  have hcond : ((mid != 0) && (lookupNat s.rallies mid).isSome) = true := by
    simp [hr, hmid]
  refine ⟨?_, ?_, ?_, ?_, ?_, ?_, ?_, ?_, ?_, ?_, ?_, ?_, ?_, ?_, ?_, ?_⟩
  · simp [delete_rally_for_vc, lookupNat_removeNat_self]
  · simp [delete_rally_for_vc, hvc, hcond, hmid, lookupNat_updateNat_self, hr]
  · intro m2 hm2
    simp [delete_rally_for_vc, hvc, hcond, hmid, lookupNat_updateNat_ne _ _ _ _ hm2]
  all_goals simp [clearRallyVC]

/-- C7 witness: tearing down channel 7 of the demo store clears its rally's
voice fields, removes the index entry, and keeps the roster. -/
theorem delete_rally_clears_witness :
    lookupNat (delete_rally_for_vc demoStore 7 true).vc_to_post 7 = none
    ∧ lookupNat (delete_rally_for_vc demoStore 7 true).rallies 100 = some (clearRallyVC demoRally)
    ∧ (clearRallyVC demoRally).participants = demoRally.participants :=
  ⟨(delete_rally_clears demoStore 7 100 demoRally true rfl (by decide) rfl).1,
   (delete_rally_clears demoStore 7 100 demoRally true rfl (by decide) rfl).2.1,
   (delete_rally_clears demoStore 7 100 demoRally true rfl (by decide) rfl).2.2.2.2.2.1⟩

/-- C9: category resolution for a temp voice channel follows exactly the
documented precedence: the configured category id when it resolves to a
category; otherwise the category of the invoking text/voice channel;
otherwise the category of the owner's current voice channel; otherwise a
freshly created category. -/
theorem pick_category_precedence (cfgId : Nat) (g : GuildModel)
    (context : Option ChannelInfo) (owner : Option OwnerModel) :
    (((cfgId != 0) && resolvesAsCategory g cfgId) = true →
        pick_or_create_category cfgId g context owner = some cfgId)
    ∧ (((cfgId != 0) && resolvesAsCategory g cfgId) = false →
        ∀ c : Nat, contextCategory context = some c →
          pick_or_create_category cfgId g context owner = some c)
    ∧ (((cfgId != 0) && resolvesAsCategory g cfgId) = false →
        contextCategory context = none →
        ∀ c : Nat, ownerVoiceCategory owner = some c →
          pick_or_create_category cfgId g context owner = some c)
    ∧ (((cfgId != 0) && resolvesAsCategory g cfgId) = false →
        contextCategory context = none → ownerVoiceCategory owner = none →
        pick_or_create_category cfgId g context owner = none) := by
  refine ⟨?_, ?_, ?_, ?_⟩
  · intro h1
    simp [pick_or_create_category, h1]
  · intro h1 c h2
    simp [pick_or_create_category, h1, h2]
  · intro h1 h2 c h3
    simp [pick_or_create_category, h1, h2, h3]
  · intro h1 h2 h3
    simp [pick_or_create_category, h1, h2, h3]

/-- C9 witness: with no usable configured id, the invoking text channel's
category (id 5) wins. -/
theorem pick_category_precedence_witness :
    pick_or_create_category 0 (GuildModel.mk [])
      (some (ChannelInfo.mk ChanKind.text (some 5))) none = some 5 :=
  (pick_category_precedence 0 (GuildModel.mk [])
      (some (ChannelInfo.mk ChanKind.text (some 5))) none).2.1 (by decide) 5 (by decide)

/-- C10: on a valid join-form submission, the stored rally-dragon flag equals
`strip().lower().startswith("y")` of the submitted answer — true exactly when
the trimmed, lowercased string starts with the letter y — and in particular
the answers "true" and "1" are stored as false. -/
theorem join_dragon_flag (rallies : List (Nat × Rally)) (mid uid : Nat)
    (ttIn tierIn dIn cIn : String) (r : Rally)
    (hr : lookupNat rallies mid = some r)
    (h1 : validTroopType (pyTitle (pyStrip ttIn)) = true)
    (h2 : validTroopTier (pyUpper (pyStrip tierIn)) = true) :
    storedParticipant (joinSubmit rallies mid uid ttIn tierIn dIn cIn).2 mid uid =
      some (Participant.mk uid (pyTitle (pyStrip ttIn)) (pyUpper (pyStrip tierIn))
        (startsWithChar 'y' (pyLower (pyStrip dIn))) (ensure_int cIn 0))
    ∧ startsWithChar 'y' (pyLower (pyStrip ("true"))) = false
    ∧ startsWithChar 'y' (pyLower (pyStrip ("1"))) = false := by
  refine ⟨?_, by decide, by decide⟩
  simp [joinSubmit, hr, h1, h2, storedParticipant, lookupNat_updateNat_self,
        lookupNat_upsertNat_self]

/-- C10 witness: the answer " Yes " on the demo rally stores the flag as
true. -/
theorem join_dragon_flag_witness :
    storedParticipant
      (joinSubmit [(100, demoRally)] 100 43 ("Cavalry") ("T8") (" Yes ") ("0")).2 100 43 =
      some (Participant.mk 43 (pyTitle (pyStrip ("Cavalry"))) (pyUpper (pyStrip ("T8")))
        (startsWithChar 'y' (pyLower (pyStrip (" Yes ")))) (ensure_int ("0") 0)) :=
  (join_dragon_flag [(100, demoRally)] 100 43 ("Cavalry") ("T8") (" Yes ") ("0")
      demoRally rfl (by decide) (by decide)).1

end RallyBot
